import Mathlib

/-
Verification of the ScrollPicker wheel-picker widget
(react-native-wheel-scrollview-picker).

Shallow embedding conventions:
- Scroll offsets and heights are rationals (`ℚ`); JS `Math.round` rounds
  half toward positive infinity, exactly as Mathlib's `round` on `ℚ`
  (`round (1/2) = 1`, `round (-1/2) = 0`), so `Math.round` is embedded as
  `round`.
- Item indices are integers (`ℤ`); a JS array read `data[i]` (which yields
  `undefined` out of bounds) is embedded as an `Option`-valued lookup.
- The side effects of a handler call (programmatic `scrollTo` commands and
  `onValueChange` callbacks) are returned as explicit lists, in the order
  the code issues them.
- React state updates (`setSelectedIndex`, `setIsScrollTo`, ...) are
  embedded as sequential assignments to an explicit state record.
-/

namespace ScrollPicker

/-- JS array read `data[i]`: `some` of the element when `0 ≤ i < data.length`,
`none` (i.e. `undefined`) otherwise. -/
def listGetI {α : Type} (data : List α) (i : ℤ) : Option α :=
  if 0 ≤ i then data[i.toNat]? else none

/-- Result of one `scrollFix` call: the component state it leaves behind
(`selectedIndex`, `isScrollTo`) and the effects it issued
(`scrollToCalls`: offsets passed to `sView.scrollTo`; `valueChanges`:
arguments passed to `onValueChange`, as (value, index) pairs). -/
structure FixResult (α : Type) where
  selectedIndex : ℤ
  isScrollTo : Bool
  scrollToCalls : List ℚ
  valueChanges : List (Option α × ℤ)
  deriving Repr, DecidableEq

/-- `scrollFix` of the older revision (src/index.tsx, lines 101-123).

`y = e.nativeEvent.contentOffset.y`; `h = itemHeight`;
`_selectedIndex = Math.round(y / h)`; `_y = _selectedIndex * h`;
if `_y !== y` then (on iOS `setIsScrollTo(true)`) and `scrollTo({y: _y})`;
if `selectedIndex === _selectedIndex` return, else `setSelectedIndex` and
`onValueChange({value: data[_selectedIndex]!, index: _selectedIndex})`. -/
def scrollFixOld {α : Type} (isIOS : Bool) (itemHeight : ℚ) (data : List α)
    (selectedIndex : ℤ) (isScrollTo : Bool) (y : ℚ) : FixResult α :=
  let h := itemHeight
  let idx := round (y / h)
  let yTarget := (idx : ℚ) * h
  let isScrollTo2 := if yTarget ≠ y then (if isIOS then true else isScrollTo) else isScrollTo
  let scrollToCalls := if yTarget ≠ y then [yTarget] else []
  if selectedIndex = idx then
    { selectedIndex := selectedIndex, isScrollTo := isScrollTo2,
      scrollToCalls := scrollToCalls, valueChanges := [] }
  else
    { selectedIndex := idx, isScrollTo := isScrollTo2,
      scrollToCalls := scrollToCalls,
      valueChanges := [(listGetI data idx, idx)] }

/-- `scrollFix` of the newer revision (src/unnamed/part_000, lines 118-141).
Identical to the older one except that the snap-scroll block is guarded by
the extra parameter `setScrollTo` (default `true`). -/
def scrollFixNew {α : Type} (isIOS : Bool) (itemHeight : ℚ) (data : List α)
    (selectedIndex : ℤ) (isScrollTo : Bool) (y : ℚ) (setScrollTo : Bool) :
    FixResult α :=
  let h := itemHeight
  let idx := round (y / h)
  let isScrollTo2 :=
    if setScrollTo then
      (if (idx : ℚ) * h ≠ y then (if isIOS then true else isScrollTo) else isScrollTo)
    else isScrollTo
  let scrollToCalls :=
    if setScrollTo then (if (idx : ℚ) * h ≠ y then [(idx : ℚ) * h] else []) else []
  if selectedIndex = idx then
    { selectedIndex := selectedIndex, isScrollTo := isScrollTo2,
      scrollToCalls := scrollToCalls, valueChanges := [] }
  else
    { selectedIndex := idx, isScrollTo := isScrollTo2,
      scrollToCalls := scrollToCalls,
      valueChanges := [(listGetI data idx, idx)] }

/-- `onScroll` of the newer revision (src/unnamed/part_000, lines 166-168):
`scrollFix(e, false)`. -/
def onScrollNew {α : Type} (isIOS : Bool) (itemHeight : ℚ) (data : List α)
    (selectedIndex : ℤ) (isScrollTo : Bool) (y : ℚ) : FixResult α :=
  scrollFixNew isIOS itemHeight data selectedIndex isScrollTo y false

/-- Component state touched by the scroll handlers: the hook states
`selectedIndex`, `isScrollTo`, `dragStarted`, `momentumStarted`, and the
pending debounce timers. The code keeps a single `timer` handle; here
`pending` is the list of timers actually pending in the runtime (each
carrying the offset its callback captured), with the tracked handle last,
so that `clearTimeout(timer)` removes the last element and `setTimeout`
appends. That at most one element is ever pending is a theorem, not a
modelling assumption. -/
structure PState where
  selectedIndex : ℤ
  isScrollTo : Bool
  dragStarted : Bool
  momentumStarted : Bool
  pending : List ℚ
  deriving Repr, DecidableEq

/-- Initial handler state of the component: flags false, no timer pending,
`selectedIndex` as constrained at mount. -/
def initPState (selectedIndex : ℤ) : PState :=
  { selectedIndex := selectedIndex, isScrollTo := false, dragStarted := false,
    momentumStarted := false, pending := [] }

/-- Events the ScrollView delivers to the handlers of src/index.tsx, plus
the firing of the debounce timer scheduled by `onScrollEndDrag`. -/
inductive Ev where
  | beginDrag
  | endDrag (y : ℚ)
  | momentumBegin
  | momentumEnd (y : ℚ)
  | timerFire
  deriving Repr, DecidableEq

/-- Outcome of dispatching one event: the next state and the effects the
handlers issued while processing it. -/
structure StepOut (α : Type) where
  state : PState
  scrollToCalls : List ℚ
  valueChanges : List (Option α × ℤ)
  deriving Repr, DecidableEq

/-- Fold a `scrollFix` result back into the component state. -/
def applyFix {α : Type} (s : PState) (r : FixResult α) : StepOut α :=
  { state := { s with selectedIndex := r.selectedIndex, isScrollTo := r.isScrollTo },
    scrollToCalls := r.scrollToCalls, valueChanges := r.valueChanges }

/-- One step of the handler state machine of src/index.tsx (lines 126-147):

* `onScrollBeginDrag`: `setDragStarted(true)`; on iOS `setIsScrollTo(false)`;
  `clearTimeout(timer)`.
* `onScrollEndDrag`: `setDragStarted(false)`; `clearTimeout(timer)`;
  `setTimer(setTimeout(..., 50))` capturing the event.
* `onMomentumScrollBegin`: `setMomentumStarted(true)`; `clearTimeout(timer)`.
* `onMomentumScrollEnd`: `setMomentumStarted(false)`; if `!isScrollTo`
  and `!dragStarted`, run `scrollFix`.
* timer firing: the callback runs `scrollFix` unless `momentumStarted`.
-/
def step {α : Type} (isIOS : Bool) (itemHeight : ℚ) (data : List α)
    (s : PState) (e : Ev) : StepOut α :=
  match e with
  | .beginDrag =>
      { state := { s with
          dragStarted := true
          isScrollTo := if isIOS then false else s.isScrollTo
          pending := s.pending.dropLast }
        scrollToCalls := [], valueChanges := [] }
  | .endDrag y =>
      { state := { s with
          dragStarted := false
          pending := s.pending.dropLast ++ [y] }
        scrollToCalls := [], valueChanges := [] }
  | .momentumBegin =>
      { state := { s with
          momentumStarted := true
          pending := s.pending.dropLast }
        scrollToCalls := [], valueChanges := [] }
  | .momentumEnd y =>
      let s1 := { s with momentumStarted := false }
      if !s.isScrollTo && !s.dragStarted then
        applyFix s1 (scrollFixOld isIOS itemHeight data s1.selectedIndex s1.isScrollTo y)
      else
        { state := s1, scrollToCalls := [], valueChanges := [] }
  | .timerFire =>
      match s.pending with
      | [] => { state := s, scrollToCalls := [], valueChanges := [] }
      | y :: rest =>
          let s1 := { s with pending := rest }
          if s.momentumStarted then
            { state := s1, scrollToCalls := [], valueChanges := [] }
          else
            applyFix s1 (scrollFixOld isIOS itemHeight data s1.selectedIndex s1.isScrollTo y)

/-- State reached after a sequence of events. -/
def run {α : Type} (isIOS : Bool) (itemHeight : ℚ) (data : List α)
    (s : PState) (evs : List Ev) : PState :=
  evs.foldl (fun st e => (step isIOS itemHeight data st e : StepOut α).state) s

/-- A `style.height` value as the code inspects it (src/index.tsx lines
10-17): `num q` is a JS number of value `q`; `strNumeric q` is a string
accepted by `isNumeric` (both `Number(s)` and `parseFloat(s)` parse),
with `Number(s) = q`; `strOther` is any other string (whitespace,
trailing garbage, ...), rejected by `isNumeric`. -/
inductive HeightVal where
  | num (q : ℚ)
  | strNumeric (q : ℚ)
  | strOther
  deriving Repr, DecidableEq

/-- `isNumeric` (src/index.tsx lines 10-17): true on numbers and on
strings that both `Number` and `parseFloat` parse. -/
def isNumeric : HeightVal → Bool
  | .num _ => true
  | .strNumeric _ => true
  | .strOther => false

/-- JS `Number(...)` coercion on a height value (`strOther` coerces to
NaN, which the code never uses since `isNumeric` guards it; the model
returns 0 there, an unused value). -/
def jsNumber : HeightVal → ℚ
  | .num q => q
  | .strNumeric q => q
  | .strOther => 0

/-- The middle operand of the `wrapperHeight` chain (src/index.tsx lines
64-66): `isViewStyle(p.style) && isNumeric(p.style.height) ?
Number(p.style.height) : 0`. The `style` argument is `none` when
`isViewStyle` fails (not an object, null, or no `height` key). -/
def styleHeightNum : Option HeightVal → ℚ
  | some hv => if isNumeric hv then jsNumber hv else 0
  | none => 0

/-- `wrapperHeight` (src/index.tsx lines 62-67):
`p.containerHeight || (style term) || itemHeight * 5`, with JS truthiness
(`undefined` and `0` falsy). `containerHeight` is `none` when the prop is
undefined. -/
def wrapperHeight (containerHeight : Option ℚ) (style : Option HeightVal)
    (itemHeight : ℚ) : ℚ :=
  let a := containerHeight.getD 0
  if a ≠ 0 then a
  else if styleHeightNum style ≠ 0 then styleHeightNum style
  else itemHeight * 5

/-- `renderItem` (src/index.tsx line 88): `isSelected = index === selectedIndex`. -/
def renderItemIsSelected (index selectedIndex : ℤ) : Bool :=
  index == selectedIndex

/-- Height of the spacer `verticalSpacing` places before the first and
after the last item (src/index.tsx line 152). -/
def verticalSpacingHeight (wrapperHeight itemHeight : ℚ) : ℚ :=
  (wrapperHeight - itemHeight) / 2

/-- `top` of the highlight overlay (src/index.tsx line 162). -/
def highlightTop (wrapperHeight itemHeight : ℚ) : ℚ :=
  (wrapperHeight - itemHeight) / 2

/-- `height` of the highlight overlay (src/index.tsx line 163). -/
def highlightHeight (itemHeight : ℚ) : ℚ :=
  itemHeight

/-- Content-coordinate top of item `index`: the leading spacer followed
by `index` rows of height `itemHeight`. -/
def itemContentTop (wrapperHeight itemHeight : ℚ) (index : ℤ) : ℚ :=
  verticalSpacingHeight wrapperHeight itemHeight + index * itemHeight

/-- The snap offset for item `index`: `_y = _selectedIndex * h` in
`scrollFix`, and `y = itemHeight * selectedIndex` in `initialize`. -/
def snapOffset (itemHeight : ℚ) (index : ℤ) : ℚ :=
  index * itemHeight

/-- `constrainIndex` (src/index.tsx lines 48-50):
`Math.max(0, Math.min(index ?? 0, dataLength - 1))`. -/
def constrainIndex (index : Option ℤ) (dataLength : ℕ) : ℤ :=
  max 0 (min (index.getD 0) ((dataLength : ℤ) - 1))

end ScrollPicker

namespace ScrollPicker

/-- Helper: the `isScrollTo` state left by the older `scrollFix`. -/
theorem scrollFixOld_isScrollTo {α : Type} (isIOS : Bool) (h y : ℚ)
    (data : List α) (si : ℤ) (ist : Bool) :
    (scrollFixOld isIOS h data si ist y).isScrollTo =
      if (round (y / h) : ℚ) * h ≠ y then (if isIOS then true else ist) else ist := by
  simp only [scrollFixOld]
  split <;> rfl

/-- Helper: the `scrollTo` calls issued by the older `scrollFix`. -/
theorem scrollFixOld_scrollToCalls {α : Type} (isIOS : Bool) (h y : ℚ)
    (data : List α) (si : ℤ) (ist : Bool) :
    (scrollFixOld isIOS h data si ist y).scrollToCalls =
      if (round (y / h) : ℚ) * h ≠ y then [(round (y / h) : ℚ) * h] else [] := by
  simp only [scrollFixOld]
  split <;> rfl

/-- Helper: a step of the machine never turns `isScrollTo` off except on
`beginDrag` (`scrollFix` only ever sets it, and no other handler writes it). -/
theorem step_preserves_isScrollTo {α : Type} (isIOS : Bool) (h : ℚ)
    (data : List α) (s : PState) (e : Ev) (he : e ≠ Ev.beginDrag)
    (hsc : s.isScrollTo = true) :
    ((step isIOS h data s e : StepOut α).state).isScrollTo = true := by
  cases e with
  | beginDrag => exact absurd rfl he
  | endDrag y => simp [step, hsc]
  | momentumBegin => simp [step, hsc]
  | momentumEnd y => simp [step, hsc]
  | timerFire =>
      cases hp : s.pending with
      | nil => simp [step, hp, hsc]
      | cons y rest =>
          simp only [step, hp]
          split
          · exact hsc
          · simp [applyFix, scrollFixOld_isScrollTo, hsc]

/-- Helper: along any event sequence with no `beginDrag`, `isScrollTo`
stays set. -/
theorem run_preserves_isScrollTo {α : Type} (isIOS : Bool) (h : ℚ)
    (data : List α) : ∀ (evs : List Ev) (s : PState),
    Ev.beginDrag ∉ evs → s.isScrollTo = true →
    (run (α := α) isIOS h data s evs).isScrollTo = true := by
  intro evs
  induction evs with
  | nil => intro s _ hsc; exact hsc
  | cons e evs ih =>
      intro s hni hsc
      have he : e ≠ Ev.beginDrag := fun hh => hni (hh ▸ List.mem_cons_self e evs)
      have hni2 : Ev.beginDrag ∉ evs := fun hh => hni (List.mem_cons_of_mem e hh)
      have : run (α := α) isIOS h data s (e :: evs) =
          run (α := α) isIOS h data (step isIOS h data s e : StepOut α).state evs := rfl
      rw [this]
      exact ih _ hni2 (step_preserves_isScrollTo isIOS h data s e he hsc)

/-- Helper: one machine step keeps at most one debounce timer pending,
because `onScrollEndDrag` clears the tracked timer before scheduling and
`onScrollBeginDrag` / `onMomentumScrollBegin` clear without scheduling. -/
theorem step_pending_le_one {α : Type} (isIOS : Bool) (h : ℚ)
    (data : List α) (s : PState) (e : Ev) (hle : s.pending.length ≤ 1) :
    ((step isIOS h data s e : StepOut α).state).pending.length ≤ 1 := by
  cases e with
  | beginDrag => simp [step, List.length_dropLast]; omega
  | endDrag y => simp [step, List.length_dropLast]; omega
  | momentumBegin => simp [step, List.length_dropLast]; omega
  | momentumEnd y =>
      simp only [step]
      split
      · simpa [applyFix] using hle
      · simpa using hle
  | timerFire =>
      cases hp : s.pending with
      | nil => simp [step, hp]
      | cons y rest =>
          rw [hp] at hle
          have hrest : rest.length ≤ 1 := by
            simp only [List.length_cons] at hle
            omega
          simp only [step, hp]
          split
          · simpa using hrest
          · simpa [applyFix] using hrest

/-- Helper: at most one debounce timer pending, along any run. -/
theorem run_pending_le_one {α : Type} (isIOS : Bool) (h : ℚ)
    (data : List α) : ∀ (evs : List Ev) (s : PState),
    s.pending.length ≤ 1 →
    (run (α := α) isIOS h data s evs).pending.length ≤ 1 := by
  intro evs
  induction evs with
  | nil => intro s hle; exact hle
  | cons e evs ih =>
      intro s hle
      have : run (α := α) isIOS h data s (e :: evs) =
          run (α := α) isIOS h data (step isIOS h data s e : StepOut α).state evs := rfl
      rw [this]
      exact ih _ (step_pending_le_one isIOS h data s e hle)

/-- C1: for every item height `h > 0` and content offset `y`, `scrollFix`
resolves the selected index as `Math.round(y / h)` (the resulting
`selectedIndex` always equals this value), and it commands a programmatic
scroll to `Math.round(y / h) * h` exactly when that offset differs from
`y`; the snapped offset is the multiple of `h` nearest to `y`. -/
theorem scrollFixOld_snaps_to_round {α : Type} (isIOS : Bool) (h y : ℚ)
    (data : List α) (si : ℤ) (ist : Bool) (hpos : 0 < h) :
    (scrollFixOld isIOS h data si ist y).selectedIndex = round (y / h) ∧
    ((round (y / h) : ℚ) * h ≠ y →
      (scrollFixOld isIOS h data si ist y).scrollToCalls = [(round (y / h) : ℚ) * h]) ∧
    ((round (y / h) : ℚ) * h = y →
      (scrollFixOld isIOS h data si ist y).scrollToCalls = []) ∧
    (∀ k : ℤ, |(round (y / h) : ℚ) * h - y| ≤ |(k : ℚ) * h - y|) := by
  have hne : h ≠ 0 := ne_of_gt hpos
  refine ⟨?_, ?_, ?_, ?_⟩
  · simp only [scrollFixOld]
    split <;> simp_all
  · intro hdiff
    simp only [scrollFixOld]
    split <;> simp [hdiff]
  · intro heq
    simp only [scrollFixOld]
    split <;> simp [heq]
  · intro k
    have h1 : (round (y / h) : ℚ) * h - y = ((round (y / h) : ℚ) - y / h) * h := by
      field_simp
    have h2 : (k : ℚ) * h - y = ((k : ℚ) - y / h) * h := by
      field_simp
    rw [h1, h2, abs_mul, abs_mul]
    apply mul_le_mul_of_nonneg_right _ (abs_nonneg h)
    rw [abs_sub_comm, abs_sub_comm ((k : ℚ)) (y / h)]
    exact round_le (y / h) k

/-- Witness for C1 at a concrete input: `h = 2`, `y = 3`, so the resolved
index is `round (3/2) = 2` and a snap scroll to offset `4` is issued. -/
theorem scrollFixOld_snaps_to_round_witness :
    (0 : ℚ) < 2 ∧
    (scrollFixOld true 2 ([10, 20, 30] : List ℤ) 0 false 3).selectedIndex = 2 ∧
    (scrollFixOld true 2 ([10, 20, 30] : List ℤ) 0 false 3).scrollToCalls = [4] := by
  have h1 := scrollFixOld_snaps_to_round true 2 3 ([10, 20, 30] : List ℤ) 0 false
    (by norm_num)
  have hr : round ((3 : ℚ) / 2) = 2 := by norm_num [round_eq]
  refine ⟨by norm_num, ?_, ?_⟩
  · rw [h1.1, hr]
  · have := h1.2.1 (by rw [hr]; norm_num)
    rw [this, hr]; norm_num

/-- C2: if the index `Math.round(y / h)` resolved by `scrollFix` equals the
current `selectedIndex`, `scrollFix` returns without changing
`selectedIndex` and without calling `onValueChange`; otherwise it sets
`selectedIndex` to the resolved index and calls `onValueChange` exactly
once with `{value: data[index], index}`. -/
theorem scrollFixOld_reports {α : Type} (isIOS : Bool) (h y : ℚ)
    (data : List α) (si : ℤ) (ist : Bool) :
    (si = round (y / h) →
      (scrollFixOld isIOS h data si ist y).selectedIndex = si ∧
      (scrollFixOld isIOS h data si ist y).valueChanges = []) ∧
    (si ≠ round (y / h) →
      (scrollFixOld isIOS h data si ist y).selectedIndex = round (y / h) ∧
      (scrollFixOld isIOS h data si ist y).valueChanges =
        [(listGetI data (round (y / h)), round (y / h))]) := by
  constructor
  · intro heq
    simp only [scrollFixOld]
    split <;> simp_all
  · intro hne
    simp only [scrollFixOld]
    split <;> simp_all

/-- Witness for C2 at concrete inputs: with `h = 2`, `y = 3` the resolved
index is `2`; from `selectedIndex = 2` nothing is reported, from
`selectedIndex = 0` the pair `(data[2], 2) = (some 30, 2)` is reported. -/
theorem scrollFixOld_reports_witness :
    (scrollFixOld true 2 ([10, 20, 30] : List ℤ) 2 false 3).valueChanges = [] ∧
    (scrollFixOld true 2 ([10, 20, 30] : List ℤ) 0 false 3).valueChanges =
      [(some 30, 2)] := by
  have hr : round ((3 : ℚ) / 2) = 2 := by norm_num [round_eq]
  have h1 := (scrollFixOld_reports true 2 3 ([10, 20, 30] : List ℤ) 2 false).1
    (by rw [hr])
  have h2 := (scrollFixOld_reports true 2 3 ([10, 20, 30] : List ℤ) 0 false).2
    (by rw [hr]; norm_num)
  refine ⟨h1.2, ?_⟩
  rw [h2.2, hr]
  simp [listGetI]

/-- C9: the two source revisions agree: for equal platform, item height,
data, current `selectedIndex`, `isScrollTo` and content offset, the newer
`scrollFix` invoked with `setScrollTo = true` produces the same resolved
index, target offset, `isScrollTo` update and `onValueChange` call as the
older `scrollFix` (the full results are equal). -/
theorem scrollFix_revisions_agree {α : Type} (isIOS : Bool) (h y : ℚ)
    (data : List α) (si : ℤ) (ist : Bool) :
    scrollFixNew isIOS h data si ist y true = scrollFixOld isIOS h data si ist y := by
  simp only [scrollFixNew, scrollFixOld, if_true]

/-- C10: the newer revision's per-frame `onScroll` path (`scrollFix` with
`setScrollTo = false`) never issues a programmatic `scrollTo` and never
changes `isScrollTo`, while still resolving the index and reporting a
change of selection exactly as the snap path does. -/
theorem onScrollNew_moves_no_scroll {α : Type} (isIOS : Bool) (h y : ℚ)
    (data : List α) (si : ℤ) (ist : Bool) :
    onScrollNew isIOS h data si ist y =
      scrollFixNew isIOS h data si ist y false ∧
    (onScrollNew isIOS h data si ist y).scrollToCalls = [] ∧
    (onScrollNew isIOS h data si ist y).isScrollTo = ist ∧
    (onScrollNew isIOS h data si ist y).selectedIndex = round (y / h) ∧
    (si = round (y / h) → (onScrollNew isIOS h data si ist y).valueChanges = []) ∧
    (si ≠ round (y / h) →
      (onScrollNew isIOS h data si ist y).valueChanges =
        [(listGetI data (round (y / h)), round (y / h))]) := by
  refine ⟨rfl, ?_, ?_, ?_, ?_, ?_⟩ <;>
    (simp only [onScrollNew, scrollFixNew]; split <;> simp_all)

/-- C3: on iOS a programmatic snap scroll never triggers a second snap:
whenever `scrollFix` issues a `scrollTo` it sets `isScrollTo`; a
momentum-end event arriving while `isScrollTo` is set does nothing but
clear `momentumStarted` (no re-entry into `scrollFix`); no event other
than `onScrollBeginDrag` can reset `isScrollTo`, so along every event
sequence free of drag starts the flag stays set and every momentum-end in
it is inert. -/
theorem ios_snap_does_not_reenter {α : Type} (h : ℚ) (data : List α) :
    (∀ (si : ℤ) (ist : Bool) (y : ℚ),
      (scrollFixOld true h data si ist y).scrollToCalls ≠ [] →
      (scrollFixOld true h data si ist y).isScrollTo = true) ∧
    (∀ (s : PState) (y : ℚ), s.isScrollTo = true →
      step (α := α) true h data s (Ev.momentumEnd y) =
        { state := { s with momentumStarted := false },
          scrollToCalls := [], valueChanges := [] }) ∧
    (∀ (s : PState) (e : Ev), e ≠ Ev.beginDrag → s.isScrollTo = true →
      ((step true h data s e : StepOut α).state).isScrollTo = true) ∧
    (∀ (evs : List Ev) (s : PState), Ev.beginDrag ∉ evs → s.isScrollTo = true →
      (run (α := α) true h data s evs).isScrollTo = true) := by
  refine ⟨?_, ?_, fun s e he hsc => step_preserves_isScrollTo true h data s e he hsc,
    run_preserves_isScrollTo true h data⟩
  · intro si ist y hne
    rw [scrollFixOld_scrollToCalls] at hne
    rw [scrollFixOld_isScrollTo]
    by_cases hvt : (round (y / h) : ℚ) * h = y
    · simp [hvt] at hne
    · simp [hvt]
  · intro s y hsc
    simp [step, hsc]

/-- Witness for C3 at a concrete input: with `isScrollTo` set, a
momentum-end event only clears `momentumStarted` and issues nothing. -/
theorem ios_snap_does_not_reenter_witness :
    step true 2 ([10, 20, 30] : List ℤ)
      { selectedIndex := 2, isScrollTo := true, dragStarted := false,
        momentumStarted := true, pending := [] } (Ev.momentumEnd 3) =
      { state := { selectedIndex := 2, isScrollTo := true, dragStarted := false,
                   momentumStarted := false, pending := [] },
        scrollToCalls := [], valueChanges := [] } :=
  (ios_snap_does_not_reenter 2 ([10, 20, 30] : List ℤ)).2.1
    { selectedIndex := 2, isScrollTo := true, dragStarted := false,
      momentumStarted := true, pending := [] } 3 rfl

/-- C4: at most one debounce timer is ever pending: every step preserves
the bound `pending.length ≤ 1`, hence every run from the initial state
satisfies it (the only scheduling handler, `onScrollEndDrag`, clears the
tracked timer first, and `onScrollBeginDrag` / `onMomentumScrollBegin`
clear without scheduling); moreover the timer callback does not run
`scrollFix` when momentum has started. -/
theorem debounce_single_timer {α : Type} (isIOS : Bool) (h : ℚ) (data : List α) :
    (∀ (s : PState) (e : Ev), s.pending.length ≤ 1 →
      ((step isIOS h data s e : StepOut α).state).pending.length ≤ 1) ∧
    (∀ (si : ℤ) (evs : List Ev),
      (run (α := α) isIOS h data (initPState si) evs).pending.length ≤ 1) ∧
    (∀ (s : PState) (y : ℚ) (rest : List ℚ), s.pending = y :: rest →
      s.momentumStarted = true →
      step isIOS h data s Ev.timerFire =
        ({ state := { s with pending := rest },
           scrollToCalls := [], valueChanges := [] } : StepOut α)) := by
  refine ⟨fun s e hle => step_pending_le_one isIOS h data s e hle, ?_, ?_⟩
  · intro si evs
    exact run_pending_le_one isIOS h data evs (initPState si) (by simp [initPState])
  · intro s y rest hp hm
    simp [step, hp, hm]

/-- Witness for C4 at concrete inputs: ending a drag while a timer is
already pending leaves at most one pending, and a timer firing during
momentum runs no `scrollFix`. -/
theorem debounce_single_timer_witness :
    ((step true 2 ([10, 20, 30] : List ℤ)
        { selectedIndex := 0, isScrollTo := false, dragStarted := true,
          momentumStarted := false, pending := [3] }
        (Ev.endDrag 5)).state).pending.length ≤ 1 ∧
    step true 2 ([10, 20, 30] : List ℤ)
      { selectedIndex := 0, isScrollTo := false, dragStarted := false,
        momentumStarted := true, pending := [3] } Ev.timerFire =
      { state := { selectedIndex := 0, isScrollTo := false, dragStarted := false,
                   momentumStarted := true, pending := [] },
        scrollToCalls := [], valueChanges := [] } := by
  constructor
  · exact (debounce_single_timer true 2 ([10, 20, 30] : List ℤ)).1
      { selectedIndex := 0, isScrollTo := false, dragStarted := true,
        momentumStarted := false, pending := [3] } (Ev.endDrag 5) (by simp)
  · exact (debounce_single_timer true 2 ([10, 20, 30] : List ℤ)).2.2
      { selectedIndex := 0, isScrollTo := false, dragStarted := false,
        momentumStarted := true, pending := [3] } 3 [] rfl rfl

/-- Helper: the `onValueChange` calls issued by the older `scrollFix`. -/
theorem scrollFixOld_valueChanges {α : Type} (isIOS : Bool) (h y : ℚ)
    (data : List α) (si : ℤ) (ist : Bool) :
    (scrollFixOld isIOS h data si ist y).valueChanges =
      if si = round (y / h) then []
      else [(listGetI data (round (y / h)), round (y / h))] := by
  simp only [scrollFixOld]
  split <;> simp_all

/-- Helper: an out-of-range integer index reads `undefined` (`none`). -/
theorem listGetI_out_of_range {α : Type} (data : List α) (i : ℤ)
    (hi : i < 0 ∨ (data.length : ℤ) ≤ i) : listGetI data i = none := by
  unfold listGetI
  rcases hi with hi | hi
  · rw [if_neg (by omega)]
  · rw [if_pos (by omega)]
    exact List.getElem?_eq_none (by omega)

/-- C5: the list is not validated: `scrollFix` always reports the raw
resolved index `Math.round(y / h)` and the unchecked array read
`data[...]` at it; any out-of-range index yields the absent element
(`undefined`, here `none`); in particular the offset `h * data.length`
reports `(undefined, data.length)`. -/
theorem scrollFix_no_bounds_check {α : Type} (isIOS : Bool) (h : ℚ)
    (data : List α) (si : ℤ) (ist : Bool) :
    (∀ y : ℚ, si ≠ round (y / h) →
      (scrollFixOld isIOS h data si ist y).valueChanges =
        [(listGetI data (round (y / h)), round (y / h))]) ∧
    (∀ i : ℤ, (i < 0 ∨ (data.length : ℤ) ≤ i) → listGetI data i = none) ∧
    (0 < h → si ≠ (data.length : ℤ) →
      (scrollFixOld isIOS h data si ist (h * (data.length : ℚ))).valueChanges =
        [(none, (data.length : ℤ))]) := by
  refine ⟨?_, fun i hi => listGetI_out_of_range data i hi, ?_⟩
  · intro y hne
    rw [scrollFixOld_valueChanges, if_neg hne]
  · intro hpos hne
    have hr : round (h * (data.length : ℚ) / h) = (data.length : ℤ) := by
      rw [mul_div_cancel_left₀ _ (ne_of_gt hpos)]
      exact round_natCast data.length
    rw [scrollFixOld_valueChanges, hr, if_neg hne,
      listGetI_out_of_range data _ (Or.inr (by omega))]

/-- Witness for C5 at a concrete input: `data = [10, 20]`, `h = 2`,
offset `4` resolves index `2 = data.length` and reports the absent
element. -/
theorem scrollFix_no_bounds_check_witness :
    (scrollFixOld true 2 ([10, 20] : List ℤ) 0 false 4).valueChanges =
      [(none, 2)] := by
  have h3 := (scrollFix_no_bounds_check true 2 ([10, 20] : List ℤ) 0 false).2.2
    (by norm_num) (by norm_num)
  norm_num at h3
  exact h3

/-- C6: the container height falls back along the chain: the truthy
`containerHeight` prop wins; otherwise a numeric, non-zero style height
(as a number or a numeric string, via `Number`) wins; otherwise the
height is `itemHeight * 5`. In particular `containerHeight = 0`, a style
height of `0`, and a non-numeric string all fall through. -/
theorem wrapperHeight_fallback_chain (ih : ℚ) :
    (∀ (c : ℚ) (st : Option HeightVal), c ≠ 0 →
      wrapperHeight (some c) st ih = c) ∧
    (∀ (ch : Option ℚ) (st : Option HeightVal), ch.getD 0 = 0 →
      styleHeightNum st ≠ 0 → wrapperHeight ch st ih = styleHeightNum st) ∧
    (∀ (ch : Option ℚ) (st : Option HeightVal), ch.getD 0 = 0 →
      styleHeightNum st = 0 → wrapperHeight ch st ih = ih * 5) ∧
    (∀ q : ℚ, q ≠ 0 → styleHeightNum (some (HeightVal.num q)) = q ∧
      styleHeightNum (some (HeightVal.strNumeric q)) = q) ∧
    (wrapperHeight (some 0) (some (HeightVal.num 0)) ih = ih * 5 ∧
     wrapperHeight (some 0) (some HeightVal.strOther) ih = ih * 5 ∧
     wrapperHeight (some 0) none ih = ih * 5) := by
  refine ⟨?_, ?_, ?_, ?_, ?_, ?_, ?_⟩
  · intro c st hc
    simp [wrapperHeight, hc]
  · intro ch st hch hst
    simp [wrapperHeight, hch, hst]
  · intro ch st hch hst
    simp [wrapperHeight, hch, hst]
  · intro q hq
    exact ⟨rfl, rfl⟩
  · simp [wrapperHeight, styleHeightNum, isNumeric, jsNumber]
  · simp [wrapperHeight, styleHeightNum, isNumeric, jsNumber]
  · simp [wrapperHeight, styleHeightNum]

/-- Witness for C6 at concrete inputs: `containerHeight = 100` wins; with
`containerHeight = 0` a numeric string height `"40"` wins; with neither,
`itemHeight * 5 = 150`. -/
theorem wrapperHeight_fallback_chain_witness :
    wrapperHeight (some 100) (some (HeightVal.num 40)) 30 = 100 ∧
    wrapperHeight (some 0) (some (HeightVal.strNumeric 40)) 30 = 40 ∧
    wrapperHeight none (some HeightVal.strOther) 30 = 30 * 5 := by
  have h1 := (wrapperHeight_fallback_chain 30).1 100 (some (HeightVal.num 40))
    (by norm_num)
  have h2 := (wrapperHeight_fallback_chain 30).2.1 (some 0)
    (some (HeightVal.strNumeric 40)) (by norm_num)
    (by simp [styleHeightNum, isNumeric, jsNumber])
  have h3 := (wrapperHeight_fallback_chain 30).2.2.1 none
    (some HeightVal.strOther) (by norm_num)
    (by simp [styleHeightNum, isNumeric])
  refine ⟨h1, ?_, h3⟩
  rw [h2]
  simp [styleHeightNum, isNumeric, jsNumber]

/-- C7: exactly the centered item is highlighted: `renderItem` gets
`isSelected = true` iff the index equals the current `selectedIndex`; the
highlight overlay sits at `(wrapperHeight - itemHeight) / 2` with height
`itemHeight`, the same offset as the leading spacer, so at the snap
offset of `selectedIndex` that item's viewport frame coincides with the
overlay. -/
theorem highlight_centers_selected (wh h : ℚ) (si : ℤ) :
    (∀ i : ℤ, renderItemIsSelected i si = true ↔ i = si) ∧
    highlightTop wh h = verticalSpacingHeight wh h ∧
    highlightHeight h = h ∧
    itemContentTop wh h si - snapOffset h si = highlightTop wh h := by
  refine ⟨?_, rfl, rfl, ?_⟩
  · intro i
    simp [renderItemIsSelected]
  · simp only [itemContentTop, snapOffset, verticalSpacingHeight, highlightTop]
    ring

/-- Witness for C7 at concrete inputs: `wrapperHeight = 150`,
`itemHeight = 30`, `selectedIndex = 2`. -/
theorem highlight_centers_selected_witness :
    (renderItemIsSelected 2 2 = true ↔ (2 : ℤ) = 2) ∧
    itemContentTop 150 30 2 - snapOffset 30 2 = highlightTop 150 30 :=
  ⟨(highlight_centers_selected 150 30 2).1 2,
   (highlight_centers_selected 150 30 2).2.2.2⟩

/-- C8: the initial internal `selectedIndex` is
`max(0, min(selectedIndex ?? 0, data.length - 1))`; for non-empty data it
lies in `[0, data.length - 1]`, and for empty data it is `0` (not `-1`,
so the documented upper bound `data.length - 1 = -1` fails there). -/
theorem constrainIndex_bounds (idx : Option ℤ) (len : ℕ) :
    constrainIndex idx len = max 0 (min (idx.getD 0) ((len : ℤ) - 1)) ∧
    (0 < len → 0 ≤ constrainIndex idx len ∧
      constrainIndex idx len ≤ (len : ℤ) - 1) ∧
    (len = 0 → constrainIndex idx len = 0 ∧
      ¬constrainIndex idx len ≤ (len : ℤ) - 1) := by
  refine ⟨rfl, ?_, ?_⟩
  · intro hl
    refine ⟨le_max_left 0 _, ?_⟩
    exact max_le (by omega) (min_le_right _ _)
  · intro hl
    subst hl
    have h0 : constrainIndex idx 0 = 0 :=
      max_eq_left (le_trans (min_le_right _ _) (by norm_num))
    exact ⟨h0, by rw [h0]; norm_num⟩

/-- Witness for C8 at concrete inputs: prop `selectedIndex = 7` with 3
items clamps into `[0, 2]`; with empty data the initial index is `0`. -/
theorem constrainIndex_bounds_witness :
    (0 ≤ constrainIndex (some 7) 3 ∧ constrainIndex (some 7) 3 ≤ (3 : ℤ) - 1) ∧
    constrainIndex (some 7) 0 = 0 :=
  ⟨(constrainIndex_bounds (some 7) 3).2.1 (by norm_num),
   ((constrainIndex_bounds (some 7) 0).2.2 rfl).1⟩

/-- Witness for C10 at a concrete input: `h = 2`, `y = 3`, mid-drag update
from `selectedIndex = 0` reports `(some 30, 2)` but issues no scroll. -/
theorem onScrollNew_moves_no_scroll_witness :
    (onScrollNew true 2 ([10, 20, 30] : List ℤ) 0 false 3).scrollToCalls = [] ∧
    (onScrollNew true 2 ([10, 20, 30] : List ℤ) 0 false 3).isScrollTo = false ∧
    (onScrollNew true 2 ([10, 20, 30] : List ℤ) 0 false 3).valueChanges =
      [(some 30, 2)] := by
  have hr : round ((3 : ℚ) / 2) = 2 := by norm_num [round_eq]
  have h1 := onScrollNew_moves_no_scroll true 2 3 ([10, 20, 30] : List ℤ) 0 false
  refine ⟨h1.2.1, h1.2.2.1, ?_⟩
  have := h1.2.2.2.2.2 (by rw [hr]; norm_num)
  rw [this, hr]
  simp [listGetI]

end ScrollPicker
